import Mathlib

/-!
Verification of the pycard module (src/pycard/card.py): a Card value type
with brand detection, masking, Luhn checksum validation and expiration
checking, plus an ExpDate value type.  The Python code is embedded
shallowly: pure methods become Lean functions; methods that can raise a
Python exception return Except PyErr; datetime instants are placed on the
absolute microsecond timeline (microseconds since 0001-01-01 00:00:00,
the proleptic Gregorian calendar used by CPython's datetime module).
The code is Python 2 (it uses dict.iteritems), so dict iteration in
Card.brand works and iterates the four brand patterns in some fixed
arbitrary order; the patterns are mutually exclusive (proved below), so
the source listing order is used in the embedding.
-/

/-- Python exceptions that the embedded code can raise. -/
inductive PyErr where
  | illegalMonthError (month : Int)
  | valueError
  | attributeError (name : String)
deriving DecidableEq, Repr

deriving instance DecidableEq for Except

/-- Leap-year test, translated from calendar.isleap:
year % 4 == 0 and (year % 100 != 0 or year % 400 == 0). -/
def isleap (year : Int) : Bool :=
  year % 4 == 0 && (year % 100 != 0 || year % 400 == 0)

/-- The calendar.mdays table: day counts per month, index 0 unused. -/
def mdays : List Nat := [0, 31, 28, 31, 30, 31, 30, 31, 31, 30, 31, 30, 31]

/-- Day count of a month, translated from calendar.monthrange's
mdays[month] + (month == FEBRUARY and isleap(year)).  The Python list
index would fail outside 0..12, but monthrange guards 1 <= month <= 12
before the access, so the getD default is never reached from monthrange. -/
def daysInMonth (year month : Int) : Nat :=
  mdays.getD month.toNat 0 + (if month == 2 && isleap year then 1 else 0)

/-- A datetime.datetime value: validated field ranges are established by
DateTime.mk? below, mirroring CPython's _check_date_fields and
_check_time_fields. -/
structure DateTime where
  year : Nat
  month : Nat
  day : Nat
  hour : Nat
  minute : Nat
  second : Nat
  microsecond : Nat
deriving DecidableEq, Repr

/-- Days in all years strictly before year y (proleptic Gregorian),
translated from CPython's _days_before_year. -/
def daysBeforeYear (y : Nat) : Nat :=
  365 * (y - 1) + (y - 1) / 4 - (y - 1) / 100 + (y - 1) / 400

/-- Days in the months of year y strictly before month m, equal to
CPython's _days_before_month (daysInMonth y 0 = 0, so including index 0
in the sum is harmless). -/
def daysBeforeMonth (y : Nat) (m : Nat) : Nat :=
  ((List.range m).map (fun i => daysInMonth (y : Int) (i : Int))).sum

/-- Proleptic Gregorian ordinal of the date, translated from CPython's
_ymd2ord: 0001-01-01 has ordinal 1. -/
def DateTime.toOrdinal (d : DateTime) : Nat :=
  daysBeforeYear d.year + daysBeforeMonth d.year d.month + d.day

/-- Position of the instant on the absolute microsecond timeline
(microseconds since 0001-01-01 00:00:00). -/
def DateTime.toMicros (d : DateTime) : Nat :=
  ((d.toOrdinal - 1) * 86400 + d.hour * 3600 + d.minute * 60 + d.second) * 1000000
    + d.microsecond

/-- Constructor datetime.datetime(year, month, day, hour, minute, second,
microsecond): validates the fields in CPython's order (ValueError on a
field out of range) and otherwise produces the value. -/
def DateTime.mk? (year month day hour minute second microsecond : Int) :
    Except PyErr DateTime :=
  if year < 1 ∨ 9999 < year then .error .valueError
  else if month < 1 ∨ 12 < month then .error .valueError
  else if day < 1 ∨ (daysInMonth year month : Int) < day then .error .valueError
  else if hour < 0 ∨ 23 < hour then .error .valueError
  else if minute < 0 ∨ 59 < minute then .error .valueError
  else if second < 0 ∨ 59 < second then .error .valueError
  else if microsecond < 0 ∨ 999999 < microsecond then .error .valueError
  else .ok ⟨year.toNat, month.toNat, day.toNat, hour.toNat, minute.toNat,
            second.toNat, microsecond.toNat⟩

/-- Weekday (Monday = 0) of a date, translated from calendar.weekday,
which builds datetime.date(year, month, day) — so it validates the date
and can raise ValueError — and takes its weekday. -/
def calWeekday (year month day : Int) : Except PyErr Nat := do
  let d ← DateTime.mk? year month day 0 0 0 0
  pure ((d.toOrdinal + 6) % 7)

/-- calendar.monthrange(year, month): raises IllegalMonthError unless
1 <= month <= 12, then returns the weekday of day 1 and the day count. -/
def monthrange (year month : Int) : Except PyErr (Nat × Nat) := do
  if month < 1 ∨ 12 < month then
    .error (.illegalMonthError month)
  else do
    let day1 ← calWeekday year month 1
    pure (day1, daysInMonth year month)

/-- The ExpDate class: holds the last possible datetime for a month/year. -/
structure ExpDate where
  expired_after : DateTime
deriving DecidableEq, Repr

/-- ExpDate.__init__(month, year): weekday, day_count = monthrange(year,
month); expired_after = datetime(year, month, day_count, 23, 59, 59,
999999).  Any exception from monthrange or the datetime constructor
propagates. -/
def ExpDate.init (month year : Int) : Except PyErr ExpDate := do
  let (_weekday, day_count) ← monthrange year month
  let ea ← DateTime.mk? year month (day_count : Int) 23 59 59 999999
  pure ⟨ea⟩

/-- ExpDate.is_expired: utcnow minus timedelta(hours=11) compared
strictly against expired_after.  The wall-clock reading utcnow is a
parameter, given as microseconds on the absolute timeline; datetime
subtraction and comparison are timeline subtraction and comparison. -/
def ExpDate.is_expired (e : ExpDate) (utcnow : Int) : Bool :=
  let samoa_now : Int := utcnow - 11 * 3600 * 1000000
  decide ((e.expired_after.toMicros : Int) < samoa_now)

/-- Attribute access self.exp_date on an ExpDate instance: the class
stores expired_after and defines no exp_date attribute, so Python raises
AttributeError. -/
def ExpDate.getattr_exp_date (_ : ExpDate) : Except PyErr DateTime :=
  .error (.attributeError "exp_date")

/-- Zero-padded two-digit strftime field such as %m. -/
def pad2 (n : Nat) : String :=
  if n < 10 then "0" ++ toString n else toString n

/-- Four-digit strftime year field %Y. -/
def pad4 (n : Nat) : String :=
  if n < 10 then "000" ++ toString n
  else if n < 100 then "00" ++ toString n
  else if n < 1000 then "0" ++ toString n
  else toString n

/-- ExpDate.mmyyyy: self.exp_date.strftime('%m/%Y').  The attribute
access raises before strftime runs. -/
def ExpDate.mmyyyy (e : ExpDate) : Except PyErr String := do
  let d ← e.getattr_exp_date
  pure (pad2 d.month ++ "/" ++ pad4 d.year)

/-- ExpDate.mm: self.exp_date.strftime('%m'). -/
def ExpDate.mm (e : ExpDate) : Except PyErr String := do
  let d ← e.getattr_exp_date
  pure (pad2 d.month)

/-- ExpDate.yyyy: self.exp_date.strftime('%Y'). -/
def ExpDate.yyyy (e : ExpDate) : Except PyErr String := do
  let d ← e.getattr_exp_date
  pure (pad4 d.year)

/-- The Card class: number (digit-stripped at construction), exp_date,
cvv2. -/
structure Card where
  number : String
  exp_date : ExpDate
  cvv2 : String
deriving DecidableEq, Repr

/-- Card.BRAND_VISA. -/
def Card.BRAND_VISA : String := "visa"

/-- Card.BRAND_MASTERCARD. -/
def Card.BRAND_MASTERCARD : String := "mastercard"

/-- Card.BRAND_AMEX. -/
def Card.BRAND_AMEX : String := "amex"

/-- Card.BRAND_DISCOVER. -/
def Card.BRAND_DISCOVER : String := "discover"

/-- Card.BRAND_UNKNOWN. -/
def Card.BRAND_UNKNOWN : String := "unknown"

/-- Card.TESTS: the tuple of well-known test card numbers, verbatim. -/
def Card.TESTS : List String :=
  [ "4444333322221111",
    "378282246310005",
    "371449635398431",
    "378734493671000",
    "30569309025904",
    "38520000023237",
    "6011111111111117",
    "6011000990139424",
    "555555555554444",
    "5105105105105100",
    "4111111111111111",
    "4012888888881881",
    "4222222222222" ]

/-- non_digit_regexp.sub('', number): strip every non-digit character
(Python 2 re \D on a byte string is the complement of ASCII 0-9). -/
def stripNonDigits (s : String) : String :=
  ⟨s.data.filter Char.isDigit⟩

/-- Card.__init__(number, month, year, cvv2): stores the digit-stripped
number, eagerly constructs ExpDate(month, year) — whose exceptions
propagate — and stores cvv2. -/
def Card.init (number : String) (month year : Int) (cvv2 : String) :
    Except PyErr Card := do
  let n := stripNonDigits number
  let e ← ExpDate.init month year
  pure ⟨n, e, cvv2⟩

/-- Python slicing s[a:b] on a string: characters at positions a..b-1,
clamped to the string length. -/
def pySlice (s : String) (a b : Nat) : String :=
  ⟨(s.data.drop a).take (b - a)⟩

/-- Attribute access self.card_type on a Card instance: the class
defines no card_type attribute (the property is named brand), so Python
raises AttributeError. -/
def Card.getattr_card_type (_ : Card) : Except PyErr String :=
  .error (.attributeError "card_type")

/-- Card.mask: if self.card_type == BRAND_AMEX then
'XXXX-XXXXXX-X' + number[11:15] else 'XXXX-XXXX-XXXX-' + number[12:16].
The card_type attribute access raises before any branch is taken. -/
def Card.mask (c : Card) : Except PyErr String := do
  let ct ← c.getattr_card_type
  if ct = Card.BRAND_AMEX then
    pure ("XXXX-XXXXXX-X" ++ pySlice c.number 11 15)
  else
    pure ("XXXX-XXXX-XXXX-" ++ pySlice c.number 12 16)

/-- All characters are ASCII digits. -/
def allDigits (l : List Char) : Bool := l.all Char.isDigit

/-- Matcher for the Visa pattern r'^4\d\x7b12\x7d(\d\x7b3\x7d)?$' under
re.match: first character 4, the rest digits, total length 13 or 16.
(The $ anchor also accepts one trailing newline in Python, but brand is
only ever applied to the digit-stripped number, which has none.) -/
def visaM (l : List Char) : Bool :=
  (l[0]? == some '4') && allDigits (l.drop 1) &&
    (l.length == 13 || l.length == 16)

/-- Matcher for the Mastercard pattern
r'^(5[1-5]\d\x7b4\x7d|677189)\d\x7b10\x7d$': either first character 5 and
second in 1..5 with the remaining 14 characters digits, or the literal
prefix 677189 followed by 10 digits; total length 16 in both branches. -/
def mcM (l : List Char) : Bool :=
  ((l[0]? == some '5') &&
    (match l[1]? with
     | some c => decide ('1' ≤ c) && decide (c ≤ '5')
     | none => false) &&
    allDigits (l.drop 2) && (l.length == 16))
  || ((l[0]? == some '6') && (l[1]? == some '7') && (l[2]? == some '7') &&
      (l[3]? == some '1') && (l[4]? == some '8') && (l[5]? == some '9') &&
      allDigits (l.drop 6) && (l.length == 16))

/-- Matcher for the Amex pattern r'^3[47]\d\x7b13\x7d$': first character
3, second 4 or 7, the remaining 13 characters digits; length 15. -/
def amexM (l : List Char) : Bool :=
  (l[0]? == some '3') && ((l[1]? == some '4') || (l[1]? == some '7')) &&
    allDigits (l.drop 2) && (l.length == 15)

/-- Matcher for the Discover pattern r'^(6011|65\d\x7b2\x7d)\d\x7b12\x7d$':
either the literal prefix 6011 followed by 12 digits, or prefix 65
followed by 14 digits; total length 16 in both branches. -/
def discM (l : List Char) : Bool :=
  ((l[0]? == some '6') && (l[1]? == some '0') && (l[2]? == some '1') &&
    (l[3]? == some '1') && allDigits (l.drop 4) && (l.length == 16))
  || ((l[0]? == some '6') && (l[1]? == some '5') &&
      allDigits (l.drop 2) && (l.length == 16))

/-- Card.brand: iterate the BRANDS mapping and return the first brand
whose pattern matches the number, else BRAND_UNKNOWN.  Python 2 dict
iteration order is arbitrary but fixed; the patterns are mutually
exclusive (brands_exclusive below), so the source listing order is
used. -/
def brandOf (number : String) : String :=
  if visaM number.data then Card.BRAND_VISA
  else if mcM number.data then Card.BRAND_MASTERCARD
  else if amexM number.data then Card.BRAND_AMEX
  else if discM number.data then Card.BRAND_DISCOVER
  else Card.BRAND_UNKNOWN

/-- Card.brand property. -/
def Card.brand (c : Card) : String := brandOf c.number

/-- The mask body with the evident intended attribute: the docstring
describes masking by brand, and the class property is named brand, so
the slip self.card_type is read as self.brand here. -/
def Card.mask_intended (c : Card) : String :=
  if c.brand = Card.BRAND_AMEX then
    "XXXX-XXXXXX-X" ++ pySlice c.number 11 15
  else
    "XXXX-XXXX-XXXX-" ++ pySlice c.number 12 16

/-- Card.is_test: self.number in self.TESTS. -/
def Card.is_test (c : Card) : Bool := Card.TESTS.contains c.number

/-- Card.is_expired: delegates to self.exp_date.is_expired. -/
def Card.is_expired (c : Card) (utcnow : Int) : Bool :=
  c.exp_date.is_expired utcnow

/-- Attribute access self.is_mod10 on a Card instance: the class defines
no is_mod10 attribute (the property is named is_mod10_valid), so Python
raises AttributeError. -/
def Card.getattr_is_mod10 (_ : Card) : Except PyErr Bool :=
  .error (.attributeError "is_mod10")

/-- Card.is_valid: not self.is_expired and self.is_mod10.  When
is_expired is true the conjunction short-circuits to False; otherwise
the is_mod10 attribute access raises. -/
def Card.is_valid (c : Card) (utcnow : Int) : Except PyErr Bool :=
  if c.is_expired utcnow then .ok false
  else c.getattr_is_mod10

/-- Python int(c) on a one-character string: its digit value, or
ValueError when the character is not a digit. -/
def pyInt (c : Char) : Except PyErr Nat :=
  if c.isDigit then .ok (c.toNat - 48) else .error .valueError

/-- Digit value of a character, total version used once digitness is
known. -/
def charVal (c : Char) : Nat := c.toNat - 48

/-- Sum of the decimal digit characters of str(x): for c in str(x):
tot += int(c). -/
def dsum (x : Nat) : Nat :=
  ((Nat.toDigits 10 x).map charVal).sum

/-- The mod10 loop of Card.is_mod10_valid, with the digits listed
rightmost first (the Python loop runs i from len-1 down to 0): dub and
tot start at 0; each step adds the digit sum of (dub + 1) * digit and
toggles dub with (dub + 1) % 2. -/
def mod10Loop : List Nat → Nat → Nat → Nat
  | [], _, tot => tot
  | d :: ds, dub, tot => mod10Loop ds ((dub + 1) % 2) (tot + dsum ((dub + 1) * d))

/-- Card.is_mod10_valid on a number string: convert each character to a
digit with int() (rightmost first, as the loop does), run the loop with
dub = tot = 0, and test tot % 10 == 0. -/
def mod10 (number : String) : Except PyErr Bool := do
  let ds ← number.data.reverse.mapM pyInt
  pure (mod10Loop ds 0 0 % 10 == 0)

/-- Card.is_mod10_valid property. -/
def Card.is_mod10_valid (c : Card) : Except PyErr Bool := mod10 c.number

/-- The number consists only of ASCII digits (the invariant established
by the constructor's digit stripping). -/
@[reducible] def digitOnly (s : String) : Prop := s.data.all Char.isDigit = true

/-- Luhn sum as the specification words it, on the digits listed
rightmost first: the digit at 0-indexed right position i is doubled when
i is odd, each doubled value contributes the sum of its decimal digits,
and undoubled digits contribute themselves.  The Bool flag says whether
the current position is to be doubled (position 0 is not). -/
def luhnAux : Bool → List Nat → Nat
  | _, [] => 0
  | false, d :: ds => d + luhnAux true ds
  | true, d :: ds => dsum (2 * d) + luhnAux false ds

/-- Luhn sum of a digit list given rightmost first. -/
def luhnSum (ds : List Nat) : Nat := luhnAux false ds

/-- Digits of a number string, rightmost first. -/
def digitsOf (s : String) : List Nat := s.data.reverse.map charVal

/-- Lists of equal length differing exactly at index i: a single-digit
perturbation. -/
def perturbedAt (ds ds' : List Nat) (i : Nat) : Prop :=
  ds.length = ds'.length ∧ i < ds.length ∧ ds.getD i 0 ≠ ds'.getD i 0 ∧
    ∀ j, j < ds.length → j ≠ i → ds.getD j 0 = ds'.getD j 0

/-- The spec-side shift of a timeline instant back by 11 hours (American
Samoa, UTC-11), in microseconds. -/
def samoaShift (t : Int) : Int := t - 11 * 3600 * 1000000

/-- Strictly-later relation on timeline instants. -/
def strictlyLater (a b : Int) : Prop := b < a

/-- Day count of a month as the specification words it: the month's
actual day count, accounting for leap years (Gregorian rule: divisible
by 4 and not by 100, or divisible by 400). -/
def gregorianDays (month year : Int) : Nat :=
  if month == 2 then
    (if (4 ∣ year ∧ ¬(100 ∣ year)) ∨ 400 ∣ year then 29 else 28)
  else if month == 4 || month == 6 || month == 9 || month == 11 then 30
  else 31

/-- A concrete ExpDate: the value ExpDate.init 1 2030 produces. -/
def ed2030 : ExpDate := ⟨⟨2030, 1, 31, 23, 59, 59, 999999⟩⟩

/-- A concrete Card: the value Card.init "4111111111111111" 12 2998
"123" produces. -/
def cardVisa : Card := ⟨"4111111111111111", ⟨⟨2998, 12, 31, 23, 59, 59, 999999⟩⟩, "123"⟩

/-- A concrete Card whose normalized number is the empty string: the
value Card.init "" 1 2030 "0" produces. -/
def cardEmpty : Card := ⟨"", ed2030, "0"⟩

/-- A concrete Amex Card: the value Card.init "378282246310005" 1 2030
"0" produces. -/
def cardAmex : Card := ⟨"378282246310005", ed2030, "0"⟩

/-- A digit value stays itself under the decimal digit-character sum. -/
theorem dsum_le9 (d : Nat) (h : d ≤ 9) : dsum d = d := by
  interval_cases d <;> rfl

/-- Digit characters have digit values at most 9. -/
theorem charVal_le9 (c : Char) (h : c.isDigit = true) : charVal c ≤ 9 := by
  unfold Char.isDigit at h
  rw [Bool.and_eq_true] at h
  obtain ⟨h1, h2⟩ := h
  rw [decide_eq_true_iff] at h2
  have hv : c.val.toNat ≤ 57 := by
    cases c with
    | mk v p => simpa [UInt32.le_def] using h2
  unfold charVal Char.toNat
  omega

/-- On a list of digit characters, mapping Python int succeeds and
produces the digit values. -/
theorem mapM_pyInt_ok (l : List Char) (h : l.all Char.isDigit = true) :
    l.mapM pyInt = .ok (l.map charVal) := by
  induction l with
  | nil => rfl
  | cons c cs ih =>
    rw [List.all_cons, Bool.and_eq_true] at h
    rw [List.mapM_cons,
        show pyInt c = Except.ok (charVal c) by simp [pyInt, h.1, charVal],
        ih h.2]
    rfl

/-- The mod10 loop computes the accumulator plus the Luhn sum, with the
doubling flag given by the parity accumulator dub. -/
theorem mod10Loop_luhnAux (ds : List Nat) : ∀ dub tot : Nat,
    (∀ d ∈ ds, d ≤ 9) → dub ≤ 1 →
    mod10Loop ds dub tot = tot + luhnAux (dub == 1) ds := by
  induction ds with
  | nil => intro dub tot _ _; simp [mod10Loop, luhnAux]
  | cons d ds ih =>
    intro dub tot h hdub
    have hd : d ≤ 9 := h d (by simp)
    have ht : ∀ x ∈ ds, x ≤ 9 := fun x hx => h x (by simp [hx])
    interval_cases dub
    · rw [show mod10Loop (d :: ds) 0 tot = mod10Loop ds 1 (tot + dsum (1 * d)) from rfl]
      rw [ih 1 _ ht (le_refl 1)]
      rw [one_mul, dsum_le9 d hd]
      show tot + d + luhnAux true ds = tot + luhnAux false (d :: ds)
      rw [show luhnAux false (d :: ds) = d + luhnAux true ds from rfl]
      omega
    · rw [show mod10Loop (d :: ds) 1 tot = mod10Loop ds 0 (tot + dsum (2 * d)) from rfl]
      rw [ih 0 _ ht (by omega)]
      show tot + dsum (2 * d) + luhnAux false ds = tot + luhnAux true (d :: ds)
      rw [show luhnAux true (d :: ds) = dsum (2 * d) + luhnAux false ds from rfl]
      omega

/-- On an all-digit number, is_mod10_valid returns the mod-10 test of
the Luhn sum of the digits. -/
theorem mod10_spec (n : String) (h : digitOnly n) :
    mod10 n = .ok (luhnSum (digitsOf n) % 10 == 0) := by
  have hall : n.data.reverse.all Char.isDigit = true := by
    rw [List.all_reverse]; exact h
  unfold mod10
  rw [mapM_pyInt_ok _ hall]
  have hloop : mod10Loop (n.data.reverse.map charVal) 0 0 = luhnSum (digitsOf n) := by
    rw [mod10Loop_luhnAux _ 0 0 ?hd (by omega)]
    · simp [luhnSum, digitsOf]
    case hd =>
      intro d hd
      rw [List.mem_map] at hd
      obtain ⟨c, hc, rfl⟩ := hd
      rw [List.all_eq_true] at hall
      exact charVal_le9 c (hall c hc)
  show Except.ok (mod10Loop (n.data.reverse.map charVal) 0 0 % 10 == 0) =
    Except.ok (luhnSum (digitsOf n) % 10 == 0)
  rw [hloop]

/-- Claim C3 (counterexample): the Card constructed from the empty
number string has is_mod10_valid = ok true, not ok false as claimed:
the empty loop leaves tot = 0 and 0 % 10 == 0 holds. -/
theorem mod10_empty_string_cex :
    Card.init "" 1 2030 "0" = .ok cardEmpty ∧
      cardEmpty.is_mod10_valid ≠ .ok false := by
  constructor
  · decide
  · decide

/-- Claim C3 (amended): for a Card whose normalized number is the empty
string, is_mod10_valid returns true (and does not crash). -/
theorem mod10_empty_string_amended :
    ∀ c : Card, c.number = "" → c.is_mod10_valid = .ok true := by
  intro c h
  show mod10 c.number = .ok true
  rw [h]
  decide

/-- Witness for the amended claim C3 at the concrete empty-number
card. -/
theorem mod10_empty_string_amended_witness :
    cardEmpty.is_mod10_valid = .ok true :=
  mod10_empty_string_amended cardEmpty rfl

/-- Claim C4: on every nonempty digit-only number, is_mod10_valid is
true exactly when the Luhn sum — doubling digits at odd 0-indexed
positions from the right, digit-summing each doubled value, adding the
undoubled digits — is divisible by 10; hence every Luhn-valid number
passes and a single-digit perturbation that is not Luhn-valid fails. -/
theorem mod10_iff_luhn_sum :
    ∀ c : Card, c.number ≠ "" → digitOnly c.number →
      ((c.is_mod10_valid = .ok true ↔ luhnSum (digitsOf c.number) % 10 = 0) ∧
       (luhnSum (digitsOf c.number) % 10 = 0 → c.is_mod10_valid = .ok true) ∧
       (∀ (c' : Card) (i : Nat), c'.number ≠ "" → digitOnly c'.number →
          perturbedAt (digitsOf c.number) (digitsOf c'.number) i →
          luhnSum (digitsOf c'.number) % 10 ≠ 0 →
          c'.is_mod10_valid = .ok false)) := by
  intro c _ h
  have hs : c.is_mod10_valid = .ok (luhnSum (digitsOf c.number) % 10 == 0) :=
    mod10_spec c.number h
  refine ⟨?_, ?_, ?_⟩
  · rw [hs]
    simp [beq_iff_eq]
  · intro hz
    rw [hs, hz]
    rfl
  · intro c' i _ h' _ hne
    have hs' : c'.is_mod10_valid = .ok (luhnSum (digitsOf c'.number) % 10 == 0) :=
      mod10_spec c'.number h'
    rw [hs']
    simp [hne]

/-- Witness for claim C4 at the Luhn-valid Visa test number. -/
theorem mod10_iff_luhn_sum_witness :
    cardVisa.is_mod10_valid = .ok true :=
  ((mod10_iff_luhn_sum cardVisa (by decide) (by decide)).1).mpr (by decide)

/-- A number cannot match both the Visa and the Mastercard pattern. -/
theorem visa_mc_exclusive (l : List Char) (hv : visaM l = true)
    (hm : mcM l = true) : False := by
  simp [visaM, mcM] at hv hm
  rcases hm with hm | hm <;> simp_all

/-- A number cannot match both the Visa and the Amex pattern. -/
theorem visa_amex_exclusive (l : List Char) (hv : visaM l = true)
    (ha : amexM l = true) : False := by
  simp [visaM, amexM] at hv ha
  simp_all

/-- A number cannot match both the Visa and the Discover pattern. -/
theorem visa_disc_exclusive (l : List Char) (hv : visaM l = true)
    (hd : discM l = true) : False := by
  simp [visaM, discM] at hv hd
  rcases hd with hd | hd <;> simp_all

/-- A number cannot match both the Mastercard and the Amex pattern. -/
theorem mc_amex_exclusive (l : List Char) (hm : mcM l = true)
    (ha : amexM l = true) : False := by
  simp [mcM, amexM] at hm ha
  rcases hm with hm | hm <;> simp_all

/-- A number cannot match both the Mastercard and the Discover pattern:
the Mastercard 6-branch forces character 1 to be 7, the Discover
branches force it to be 0 or 5. -/
theorem mc_disc_exclusive (l : List Char) (hm : mcM l = true)
    (hd : discM l = true) : False := by
  simp [mcM, discM] at hm hd
  rcases hm with hm | hm <;> rcases hd with hd | hd <;> simp_all

/-- A number cannot match both the Amex and the Discover pattern. -/
theorem amex_disc_exclusive (l : List Char) (ha : amexM l = true)
    (hd : discM l = true) : False := by
  simp [amexM, discM] at ha hd
  rcases hd with hd | hd <;> simp_all

/-- Characterization of brandOf on any number string: each brand is
returned exactly when its pattern matches, unknown exactly when no
pattern matches; well-defined because the patterns are mutually
exclusive. -/
theorem brandOf_cases (s : String) :
    (brandOf s = Card.BRAND_VISA ↔ visaM s.data = true) ∧
    (brandOf s = Card.BRAND_MASTERCARD ↔ mcM s.data = true) ∧
    (brandOf s = Card.BRAND_AMEX ↔ amexM s.data = true) ∧
    (brandOf s = Card.BRAND_DISCOVER ↔ discM s.data = true) ∧
    (brandOf s = Card.BRAND_UNKNOWN ↔
      (visaM s.data = false ∧ mcM s.data = false ∧
       amexM s.data = false ∧ discM s.data = false)) := by
  unfold brandOf
  split_ifs with h1 h2 h3 h4
  · exact ⟨iff_of_true rfl h1,
      iff_of_false (by decide) (fun hm => visa_mc_exclusive _ h1 hm),
      iff_of_false (by decide) (fun ha => visa_amex_exclusive _ h1 ha),
      iff_of_false (by decide) (fun hd => visa_disc_exclusive _ h1 hd),
      iff_of_false (by decide) (fun hr => by simp [h1] at hr)⟩
  · exact ⟨iff_of_false (by decide) (fun hv => absurd hv h1),
      iff_of_true rfl h2,
      iff_of_false (by decide) (fun ha => mc_amex_exclusive _ h2 ha),
      iff_of_false (by decide) (fun hd => mc_disc_exclusive _ h2 hd),
      iff_of_false (by decide) (fun hr => by have h := hr.2.1; simp [h2] at h)⟩
  · exact ⟨iff_of_false (by decide) (fun hv => absurd hv h1),
      iff_of_false (by decide) (fun hm => absurd hm h2),
      iff_of_true rfl h3,
      iff_of_false (by decide) (fun hd => amex_disc_exclusive _ h3 hd),
      iff_of_false (by decide) (fun hr => by have h := hr.2.2.1; simp [h3] at h)⟩
  · exact ⟨iff_of_false (by decide) (fun hv => absurd hv h1),
      iff_of_false (by decide) (fun hm => absurd hm h2),
      iff_of_false (by decide) (fun ha => absurd ha h3),
      iff_of_true rfl h4,
      iff_of_false (by decide) (fun hr => by have h := hr.2.2.2; simp [h4] at h)⟩
  · exact ⟨iff_of_false (by decide) (fun hv => absurd hv h1),
      iff_of_false (by decide) (fun hm => absurd hm h2),
      iff_of_false (by decide) (fun ha => absurd ha h3),
      iff_of_false (by decide) (fun hd => absurd hd h4),
      iff_of_true rfl ⟨by simpa using h1, by simpa using h2,
        by simpa using h3, by simpa using h4⟩⟩

/-- Claim C5: for every Card with a digit-only number, brand is a pure
function of the number classified by the four fixed patterns — visa,
mastercard, amex, discover — with unknown when none match; and the five
cited example numbers classify as stated. -/
theorem brand_matches_patterns :
    (∀ c : Card, digitOnly c.number →
      ((c.brand = Card.BRAND_VISA ↔ visaM c.number.data = true) ∧
       (c.brand = Card.BRAND_MASTERCARD ↔ mcM c.number.data = true) ∧
       (c.brand = Card.BRAND_AMEX ↔ amexM c.number.data = true) ∧
       (c.brand = Card.BRAND_DISCOVER ↔ discM c.number.data = true) ∧
       (c.brand = Card.BRAND_UNKNOWN ↔
         (visaM c.number.data = false ∧ mcM c.number.data = false ∧
          amexM c.number.data = false ∧ discM c.number.data = false)))) ∧
    brandOf "4111111111111111" = Card.BRAND_VISA ∧
    brandOf "378282246310005" = Card.BRAND_AMEX ∧
    brandOf "6011111111111117" = Card.BRAND_DISCOVER ∧
    brandOf "5105105105105100" = Card.BRAND_MASTERCARD ∧
    brandOf "0000000000000000" = Card.BRAND_UNKNOWN :=
  ⟨fun c _hdig => brandOf_cases c.number,
    by decide, by decide, by decide, by decide, by decide⟩

/-- Witness for claim C5 at the concrete Visa card. -/
theorem brand_matches_patterns_witness :
    cardVisa.brand = Card.BRAND_VISA :=
  ((brand_matches_patterns.1 cardVisa (by decide)).1).mpr (by decide)

/-- Claim C10: is_test is exactly membership of the number in the
13-entry TESTS table; its Mastercard entry is the 15-digit string
555555555554444, so the 16-digit 5555555555554444 is not a test number
while the 15-digit string is. -/
theorem is_test_membership :
    (∀ c : Card, c.is_test = true ↔ c.number ∈ Card.TESTS) ∧
    Card.TESTS.length = 13 ∧
    ("555555555554444" : String).length = 15 ∧
    Card.TESTS.contains "555555555554444" = true ∧
    Card.TESTS.contains "5555555555554444" = false ∧
    Card.is_test ⟨"5555555555554444", ed2030, ""⟩ = false ∧
    Card.is_test ⟨"555555555554444", ed2030, ""⟩ = true := by
  refine ⟨?_, by decide, by decide, by decide, by decide, by decide, by decide⟩
  intro c
  simp [Card.is_test]

/-- Claim C7: for every ExpDate and every wall-clock reading, is_expired
is true exactly when the reading shifted back 11 hours (American Samoa,
UTC-11) lies strictly after the stored expired_after instant, and false
when the shifted reading is at or before that instant. -/
theorem is_expired_samoa_shift :
    ∀ (e : ExpDate) (now : Int),
      (e.is_expired now = true ↔
        strictlyLater (samoaShift now) (e.expired_after.toMicros : Int)) ∧
      (e.is_expired now = false ↔
        samoaShift now ≤ (e.expired_after.toMicros : Int)) := by
  intro e now
  unfold ExpDate.is_expired samoaShift strictlyLater
  constructor
  · simp
  · simp

/-- Witness for claim C7: at wall-clock reading 0 the January 2030
expiration date is not yet expired. -/
theorem is_expired_samoa_shift_witness :
    ed2030.is_expired 0 = false :=
  (is_expired_samoa_shift ed2030 0).2.mpr (by decide)

/-- A month outside 1..12 makes ExpDate.init raise IllegalMonthError
from monthrange. -/
theorem init_err_month (month year : Int) (h : month < 1 ∨ 12 < month) :
    ExpDate.init month year = .error (.illegalMonthError month) := by
  unfold ExpDate.init monthrange
  rw [if_pos h]
  rfl

/-- Claim C9: a month outside 1..12 makes ExpDate construction — and
hence Card construction — fail with IllegalMonthError; no value is
produced. -/
theorem invalid_month_rejected :
    ∀ month year : Int, (month < 1 ∨ 12 < month) →
      (ExpDate.init month year = .error (.illegalMonthError month) ∧
       ∀ number cvv2 : String,
         Card.init number month year cvv2 = .error (.illegalMonthError month)) := by
  intro month year h
  have he := init_err_month month year h
  refine ⟨he, fun number cvv2 => ?_⟩
  unfold Card.init
  rw [he]
  rfl

/-- Witness for claim C9 at months 13 and 0. -/
theorem invalid_month_rejected_witness :
    ExpDate.init 13 2025 = .error (.illegalMonthError 13) ∧
    Card.init "4111111111111111" 0 2025 "123" = .error (.illegalMonthError 0) :=
  ⟨(invalid_month_rejected 13 2025 (by decide)).1,
   (invalid_month_rejected 0 2025 (by decide)).2 "4111111111111111" "123"⟩

/-- A year outside 1..9999 (with the month in range) makes ExpDate.init
raise ValueError from the date validation inside calendar.weekday. -/
theorem init_err_year (month year : Int) (hm : ¬(month < 1 ∨ 12 < month))
    (hy : year < 1 ∨ 9999 < year) :
    ExpDate.init month year = .error .valueError := by
  unfold ExpDate.init monthrange calWeekday DateTime.mk?
  rw [if_neg hm, if_pos hy]
  rfl

/-- Months in range have at least one day. -/
theorem daysInMonth_pos (year month : Int) (h1 : 1 ≤ month)
    (h2 : month ≤ 12) : 1 ≤ daysInMonth year month := by
  interval_cases month
  all_goals simp [daysInMonth, mdays]
  all_goals split_ifs <;> omega

/-- Full evaluation of a successful ExpDate construction. -/
theorem init_eval (month year : Int) (hm : ¬(month < 1 ∨ 12 < month))
    (hy : ¬(year < 1 ∨ 9999 < year)) :
    ExpDate.init month year =
      .ok ⟨⟨year.toNat, month.toNat, daysInMonth year month,
        23, 59, 59, 999999⟩⟩ := by
  have hday : 1 ≤ daysInMonth year month := by
    push_neg at hm
    exact daysInMonth_pos year month hm.1 (by omega)
  unfold ExpDate.init monthrange calWeekday DateTime.mk?
  simp only [if_neg hm, if_neg hy,
      if_neg (show ¬((1 : Int) < 1 ∨ (daysInMonth year month : Int) < 1) by omega),
      if_neg (show ¬((0 : Int) < 0 ∨ (23 : Int) < 0) by decide),
      if_neg (show ¬((0 : Int) < 0 ∨ (59 : Int) < 0) by decide),
      if_neg (show ¬((0 : Int) < 0 ∨ (999999 : Int) < 0) by decide),
      if_neg (show ¬((daysInMonth year month : Int) < 1 ∨
        (daysInMonth year month : Int) < (daysInMonth year month : Int)) by omega),
      if_neg (show ¬((23 : Int) < 0 ∨ (23 : Int) < 23) by decide),
      if_neg (show ¬((59 : Int) < 0 ∨ (59 : Int) < 59) by decide),
      if_neg (show ¬((999999 : Int) < 0 ∨ (999999 : Int) < 999999) by decide),
      bind, Except.bind, pure, Except.pure]
  rfl

/-- Shape of a successful ExpDate construction: the month and year were
in range and expired_after holds the month's day count at
23:59:59.999999. -/
theorem init_ok_shape (month year : Int) (e : ExpDate)
    (h : ExpDate.init month year = .ok e) :
    1 ≤ month ∧ month ≤ 12 ∧ 1 ≤ year ∧ year ≤ 9999 ∧
      e.expired_after = ⟨year.toNat, month.toNat, daysInMonth year month,
        23, 59, 59, 999999⟩ := by
  by_cases hm : month < 1 ∨ 12 < month
  · rw [init_err_month month year hm] at h
    exact absurd h (by simp)
  by_cases hy : year < 1 ∨ 9999 < year
  · rw [init_err_year month year hm hy] at h
    exact absurd h (by simp)
  rw [init_eval month year hm hy] at h
  have he : e = ⟨⟨year.toNat, month.toNat, daysInMonth year month,
      23, 59, 59, 999999⟩⟩ := (Except.ok.inj h).symm
  subst he
  push_neg at hm hy
  exact ⟨hm.1, by omega, hy.1, by omega, rfl⟩

/-- The calendar.isleap test agrees with the Gregorian leap-year rule
stated with divisibility. -/
theorem isleap_iff (y : Int) :
    isleap y = true ↔ ((4 ∣ y ∧ ¬(100 ∣ y)) ∨ 400 ∣ y) := by
  unfold isleap
  simp only [Bool.and_eq_true, Bool.or_eq_true, beq_iff_eq, bne_iff_ne]
  omega

/-- The mdays-table day count agrees with the case-by-case Gregorian
day count for months in range. -/
theorem daysInMonth_eq_gregorian (month year : Int) (h1 : 1 ≤ month)
    (h2 : month ≤ 12) : daysInMonth year month = gregorianDays month year := by
  interval_cases month
  all_goals
    simp [daysInMonth, mdays, gregorianDays]
  by_cases hl : isleap year = true
  · rw [if_pos hl, if_pos ((isleap_iff year).mp hl)]
  · rw [if_neg hl, if_neg (fun hg => hl ((isleap_iff year).mpr hg))]

/-- Claim C8: every accepted (month, year) stores expired_after as the
last calendar day of that month — the month's actual day count, leap
years included — at 23:59:59.999999. -/
theorem exp_date_last_instant :
    ∀ (month year : Int) (e : ExpDate), ExpDate.init month year = .ok e →
      ((e.expired_after.year : Int) = year ∧
       (e.expired_after.month : Int) = month ∧
       e.expired_after.day = daysInMonth year month ∧
       e.expired_after.day = gregorianDays month year ∧
       e.expired_after.hour = 23 ∧ e.expired_after.minute = 59 ∧
       e.expired_after.second = 59 ∧ e.expired_after.microsecond = 999999) := by
  intro month year e h
  obtain ⟨h1, h2, h3, h4, hshape⟩ := init_ok_shape month year e h
  rw [hshape]
  refine ⟨?_, ?_, rfl, ?_, rfl, rfl, rfl, rfl⟩
  · exact Int.toNat_of_nonneg (by omega)
  · exact Int.toNat_of_nonneg (by omega)
  · exact daysInMonth_eq_gregorian month year h1 h2

/-- Witness for claim C8 at February 2024: the stored day is 29. -/
theorem exp_date_last_instant_witness :
    ExpDate.init 2 2024 = .ok ⟨⟨2024, 2, 29, 23, 59, 59, 999999⟩⟩ ∧
    (⟨⟨2024, 2, 29, 23, 59, 59, 999999⟩⟩ : ExpDate).expired_after.day = 29 := by
  refine ⟨by decide, ?_⟩
  have h := exp_date_last_instant 2 2024 ⟨⟨2024, 2, 29, 23, 59, 59, 999999⟩⟩ (by decide)
  exact h.2.2.1.trans (by decide)

/-- Claim C1 (code evidence): is_valid evaluates self.is_mod10, an
attribute the class does not define (the property is is_mod10_valid), so
a non-expired card raises AttributeError instead of returning the
claimed conjunction; an expired card short-circuits to False before the
broken access. -/
theorem is_valid_attribute_slip :
    Card.init "4111111111111111" 12 2998 "123" = .ok cardVisa ∧
    cardVisa.is_expired 0 = false ∧
    cardVisa.is_valid 0 = .error (.attributeError "is_mod10") ∧
    cardVisa.is_valid (10 ^ 18) = .ok false := by decide

/-- Claim C2 (code evidence): brand, is_test, is_expired and
is_mod10_valid do return values, but mask, is_valid, mm, yyyy and mmyyyy
raise AttributeError on every card because they read the misnamed
attributes card_type, is_mod10 and exp_date. -/
theorem operations_attribute_errors :
    cardVisa.brand = Card.BRAND_VISA ∧
    cardVisa.is_test = true ∧
    cardVisa.is_mod10_valid = .ok true ∧
    cardVisa.is_expired 0 = false ∧
    cardVisa.mask = .error (.attributeError "card_type") ∧
    cardVisa.is_valid 0 = .error (.attributeError "is_mod10") ∧
    cardVisa.exp_date.mm = .error (.attributeError "exp_date") ∧
    cardVisa.exp_date.yyyy = .error (.attributeError "exp_date") ∧
    cardVisa.exp_date.mmyyyy = .error (.attributeError "exp_date") := by decide

/-- Claim C6 (code evidence): mask reads self.card_type, an attribute
the class does not define (the property is brand), so it raises
AttributeError instead of returning the masked string; with the evident
intended attribute the claimed strings do come out. -/
theorem mask_attribute_slip :
    Card.init "378282246310005" 1 2030 "0" = .ok cardAmex ∧
    cardAmex.brand = Card.BRAND_AMEX ∧
    cardAmex.mask = .error (.attributeError "card_type") ∧
    cardAmex.mask_intended = "XXXX-XXXXXX-X0005" ∧
    cardVisa.mask_intended = "XXXX-XXXX-XXXX-1111" := by decide
